import Mathlib

/-!
Verification of the ESP8266Doors door monitor
(src/ESP8266Doors/ESP8266Doors.ino).

Shallow embedding: the sketch's `setup()`, one iteration of `loop()`, and
`https_stuff()` are modelled as pure Lean functions.  A raw sensor level is
a `Bool` because `digitalRead` on a digital input pin yields exactly the two
values `LOW` (0) and `HIGH` (1).  All externally visible effects of a run
(serial prints, LED writes, `https_stuff` invocations, outbound POST
requests, payload fetches, indicator calls) are collected in a `Trace`
record.  Build-time configuration constants that live in the not-included
header `IoTvars_valvomo.h` (`SPACEID`, `WEB_USER`, `WEB_PASS`) are
parameters of the model (`Config`); the network's answers on one
`https_stuff` call (Wi-Fi association status as returned by
`WiFiMulti.run()`, the status code returned by `HTTPClient::POST`, the
response body returned by `getString`) are inputs (`NetEnv`).
-/

namespace ESP8266Doors

/-- Arduino logic levels: `LOW` = 0, `HIGH` = 1. -/
def LOW : Bool := false

/-- Arduino logic levels: `LOW` = 0, `HIGH` = 1. -/
def HIGH : Bool := true

/-- Build-time configuration from the `IoTvars` header: space identifier and
HTTP Basic credentials. -/
structure Config where
  spaceid : String
  webUser : String
  webPass : String
deriving DecidableEq, Repr

/-- The network environment one `https_stuff` call observes:
`wifiConnected` is `WiFiMulti.run() == WL_CONNECTED`, `postCode` is the
value returned by `https.POST("")` (negative on transport error), and
`payload` is what `https.getString()` would return. -/
structure NetEnv where
  wifiConnected : Bool
  postCode : Int
  payload : String
deriving DecidableEq, Repr

/-- One outbound HTTP request as composed by `https_stuff`. -/
structure Request where
  method : String
  url : String
  body : String
  authUser : String
  authPass : String
deriving DecidableEq, Repr

/-- The externally visible effects of a run, in order within each kind:
arguments of `https_stuff` invocations, outbound POST requests, fetched
response payloads, number of `show_armed()` calls, number of
`show_running()` calls, serial log lines, LED writes. -/
structure Trace where
  notifyArgs : List Bool
  posts : List Request
  payloadFetches : List String
  armedCount : Nat
  runningCount : Nat
  log : List String
  leds : List Bool
deriving DecidableEq, Repr

/-- The empty trace: no effects. -/
def Trace.empty : Trace := ⟨[], [], [], 0, 0, [], []⟩

/-- Sequential composition of effect traces. -/
def Trace.append (a b : Trace) : Trace :=
  ⟨a.notifyArgs ++ b.notifyArgs, a.posts ++ b.posts,
   a.payloadFetches ++ b.payloadFetches, a.armedCount + b.armedCount,
   a.runningCount + b.runningCount, a.log ++ b.log, a.leds ++ b.leds⟩

instance : Append Trace := ⟨Trace.append⟩

/-- Effect of one `Serial.print` / `Serial.println`. -/
def serialOut (msg : String) : Trace := { Trace.empty with log := [msg] }

/-- Effect of one `digitalWrite(LED_BUILTIN, level)`. -/
def ledWrite (level : Bool) : Trace := { Trace.empty with leds := [level] }

@[simp] theorem Trace.notifyArgs_append (a b : Trace) :
    (a ++ b).notifyArgs = a.notifyArgs ++ b.notifyArgs := rfl

@[simp] theorem Trace.posts_append (a b : Trace) :
    (a ++ b).posts = a.posts ++ b.posts := rfl

@[simp] theorem Trace.payloadFetches_append (a b : Trace) :
    (a ++ b).payloadFetches = a.payloadFetches ++ b.payloadFetches := rfl

@[simp] theorem Trace.armedCount_append (a b : Trace) :
    (a ++ b).armedCount = a.armedCount + b.armedCount := rfl

@[simp] theorem Trace.runningCount_append (a b : Trace) :
    (a ++ b).runningCount = a.runningCount + b.runningCount := rfl

@[simp] theorem Trace.log_append (a b : Trace) :
    (a ++ b).log = a.log ++ b.log := rfl

@[simp] theorem Trace.leds_append (a b : Trace) :
    (a ++ b).leds = a.leds ++ b.leds := rfl

/-- `HTTP_CODE_OK` from ESP8266HTTPClient. -/
def HTTP_CODE_OK : Int := 200

/-- `HTTP_CODE_MOVED_PERMANENTLY` from ESP8266HTTPClient. -/
def HTTP_CODE_MOVED_PERMANENTLY : Int := 301

/-- The URL `https_stuff` composes: host is hard-coded in the sketch,
`door_state == 0` (LOW) selects the `open` action, anything else `close`. -/
def urlFor (spaceid : String) (door_state : Bool) : String :=
  if door_state = LOW then
    "https://www.doors.modeemi.fi/space_events/" ++ spaceid ++ "/open"
  else
    "https://www.doors.modeemi.fi/space_events/" ++ spaceid ++ "/close"

/-- `HTTPClient::begin(client, url)` succeeds exactly when the URL's
protocol is `http` or `https` (it only parses the URL; no network I/O). -/
def httpBegin (url : String) : Bool :=
  List.isPrefixOf "http://".data url.data ||
  List.isPrefixOf "https://".data url.data

/-- The body of `https_stuff(int door_state)` from the sketch, as the trace
of effects it produces given the network environment.  The whole body is
guarded by `WiFiMulti.run() == WL_CONNECTED`; inside, the URL is composed,
`https.begin` is attempted, Basic credentials are set and one empty-body
POST is performed; the response code is then only logged, except that a
code of 200 or 301 additionally fetches and prints the response payload. -/
def https_stuff (cfg : Config) (env : NetEnv) (door_state : Bool) : Trace :=
  if env.wifiConnected then
    let tBegin := serialOut "[HTTPS] begin...\n"
    let spaceid := cfg.spaceid
    let httpAddress := urlFor spaceid door_state
    if httpBegin httpAddress then
      let req : Request :=
        { method := "POST", url := httpAddress, body := "",
          authUser := cfg.webUser, authPass := cfg.webPass }
      let tPost := serialOut "[HTTPS] POST...\n" ++
        { Trace.empty with posts := [req] }
      let httpCode := env.postCode
      let tOutcome :=
        if httpCode > 0 then
          let tCode := serialOut ("[HTTPS] POST... code: " ++
            toString httpCode ++ "\n")
          if httpCode = HTTP_CODE_OK ∨ httpCode = HTTP_CODE_MOVED_PERMANENTLY
          then
            let tPayload : Trace :=
              { Trace.empty with
                payloadFetches := [env.payload]
                log := [env.payload] }
            tCode ++ tPayload
          else tCode
        else
          serialOut ("[HTTPS] GET... failed, error: " ++
            toString httpCode ++ "\n")
      tBegin ++ tPost ++ tOutcome
    else tBegin ++ serialOut "[HTTPS] Unable to connect\n"
  else Trace.empty

/-- The raw sensor reads one `loop()` iteration can observe: `read1` is the
first `digitalRead(buttonPin)`, `read2` the re-read after the 15 s debounce
delay (consumed only when `read1` differs from the confirmed state), and
`env` the network environment of the `https_stuff` call of this cycle. -/
structure CycleInput where
  read1 : Bool
  read2 : Bool
  env : NetEnv
deriving DecidableEq, Repr

/-- One iteration of `loop()`: given the confirmed state `old_door_state`
and the cycle's inputs, returns the confirmed state after the iteration and
the trace of effects.  Mirrors the sketch: on a differing first read, wait
15 s, re-read; if the re-read equals the first read, commit the new state,
print and set the LED, and call `https_stuff` with the new state; otherwise
do nothing.  Then unconditionally call `show_armed()` and print the wait
message. -/
def loopCycle (cfg : Config) (old_door_state : Bool) (inp : CycleInput) :
    Bool × Trace :=
  let door_state := inp.read1
  let step :=
    if door_state ≠ old_door_state then
      let tChange :=
        serialOut "[ModeemiDoorbot] Change detected, waiting 15 seconds...\n"
      let verify_door_state := inp.read2
      if verify_door_state = door_state then
        let tState :=
          if verify_door_state = HIGH then
            serialOut
              "[ModeemiDoorbot] New state is CLOSED, Sending update to server...\n"
              ++ ledWrite LOW
          else
            serialOut
              "[ModeemiDoorbot] New state is OPEN, Sending update to server...\n"
              ++ ledWrite HIGH
        let tNotify := { Trace.empty with notifyArgs := [verify_door_state] }
          ++ https_stuff cfg inp.env verify_door_state
        (verify_door_state, tChange ++ tState ++ tNotify)
      else
        (old_door_state, tChange)
    else
      (old_door_state, Trace.empty)
  let tArmed := { Trace.empty with armedCount := 1 }
  let tWait := serialOut "[ModeemiDoorbot] Waiting 4s..."
  (step.1, step.2 ++ tArmed ++ tWait)

/-- The tail of `setup()` that concerns the door logic: the confirmed state
is seeded from one raw read, `show_running()` is called, and then
`https_stuff` is called with the seeded state.  Returns the confirmed state
entering the first `loop()` iteration and the trace of effects. -/
def setupRun (cfg : Config) (initRead : Bool) (env : NetEnv) : Bool × Trace :=
  let old_door_state := initRead
  let tRun := { Trace.empty with runningCount := 1 }
  let tNotify := { Trace.empty with notifyArgs := [old_door_state] }
    ++ https_stuff cfg env old_door_state
  (old_door_state, tRun ++ tNotify)

/-- One step of an LED blink pattern. -/
inductive LedStep where
  | write (level : Bool)
  | wait (ms : Nat)
deriving DecidableEq, Repr

/-- The `show_running()` blink pattern. -/
def show_running : List LedStep :=
  [.write LOW, .wait 100, .write HIGH, .wait 600,
   .write LOW, .wait 100, .write HIGH, .wait 100,
   .write LOW, .wait 100, .write HIGH]

/-- The `show_armed()` blink pattern. -/
def show_armed : List LedStep :=
  [.write LOW, .wait 500, .write HIGH, .wait 500,
   .write LOW, .wait 100, .write HIGH, .wait 100,
   .write LOW, .wait 100, .write HIGH, .wait 100,
   .write LOW, .wait 600, .write HIGH, .wait 100,
   .write LOW, .wait 100, .write HIGH]

/-- Concrete configuration used by witnesses. -/
def cfg0 : Config := ⟨"7", "doorsuser", "doorspass"⟩

/-- Concrete environment: connected, POST answered 200. -/
def envUp : NetEnv := ⟨true, 200, "OK"⟩

/-- Concrete environment: Wi-Fi not associated. -/
def envDown : NetEnv := ⟨false, 200, "OK"⟩

/-- Concrete environment: connected, POST answered 500. -/
def env500 : NetEnv := ⟨true, 500, "Internal Server Error"⟩

/-- The URL composed by `https_stuff` always has the `https` protocol, so
`HTTPClient::begin` accepts it. -/
theorem httpBegin_urlFor (spaceid : String) (s : Bool) :
    httpBegin (urlFor spaceid s) = true := by
  have h1 : ("https://www.doors.modeemi.fi/space_events/" : String) =
      "https://" ++ "www.doors.modeemi.fi/space_events/" := rfl
  cases s <;>
    simp [httpBegin, urlFor, LOW, h1, String.data_append,
      List.isPrefixOf_iff_prefix, List.append_assoc]

@[simp] theorem serialOut_notifyArgs (m : String) :
    (serialOut m).notifyArgs = [] := rfl

@[simp] theorem serialOut_posts (m : String) : (serialOut m).posts = [] := rfl

@[simp] theorem serialOut_payloadFetches (m : String) :
    (serialOut m).payloadFetches = [] := rfl

@[simp] theorem serialOut_armedCount (m : String) :
    (serialOut m).armedCount = 0 := rfl

@[simp] theorem serialOut_runningCount (m : String) :
    (serialOut m).runningCount = 0 := rfl

@[simp] theorem serialOut_log (m : String) : (serialOut m).log = [m] := rfl

@[simp] theorem serialOut_leds (m : String) : (serialOut m).leds = [] := rfl

@[simp] theorem ledWrite_notifyArgs (l : Bool) :
    (ledWrite l).notifyArgs = [] := rfl

@[simp] theorem ledWrite_posts (l : Bool) : (ledWrite l).posts = [] := rfl

@[simp] theorem ledWrite_armedCount (l : Bool) :
    (ledWrite l).armedCount = 0 := rfl

@[simp] theorem ledWrite_leds (l : Bool) : (ledWrite l).leds = [l] := rfl

@[simp] theorem Trace.empty_notifyArgs : Trace.empty.notifyArgs = [] := rfl

@[simp] theorem Trace.empty_posts : Trace.empty.posts = [] := rfl

@[simp] theorem Trace.empty_payloadFetches :
    Trace.empty.payloadFetches = [] := rfl

@[simp] theorem Trace.empty_armedCount : Trace.empty.armedCount = 0 := rfl

@[simp] theorem Trace.empty_runningCount : Trace.empty.runningCount = 0 := rfl

@[simp] theorem Trace.empty_log : Trace.empty.log = [] := rfl

@[simp] theorem Trace.empty_leds : Trace.empty.leds = [] := rfl

/-- A call of `https_stuff` never itself records an `https_stuff`
invocation; invocations are recorded at the call sites in `setup` and
`loop`. -/
theorem https_stuff_notifyArgs (cfg : Config) (env : NetEnv) (s : Bool) :
    (https_stuff cfg env s).notifyArgs = [] := by
  simp [https_stuff, apply_ite Trace.notifyArgs]

/-- A call of `https_stuff` never calls `show_armed`. -/
theorem https_stuff_armedCount (cfg : Config) (env : NetEnv) (s : Bool) :
    (https_stuff cfg env s).armedCount = 0 := by
  simp [https_stuff, apply_ite Trace.armedCount]

/-- With Wi-Fi associated, `https_stuff` performs exactly one POST, with
empty body and Basic credentials, to the composed URL — whatever the
response code turns out to be. -/
theorem https_stuff_posts_online (cfg : Config) (env : NetEnv) (s : Bool)
    (h : env.wifiConnected = true) :
    (https_stuff cfg env s).posts =
      [{ method := "POST", url := urlFor cfg.spaceid s, body := "",
         authUser := cfg.webUser, authPass := cfg.webPass }] := by
  simp [https_stuff, h, httpBegin_urlFor, apply_ite Trace.posts]

/-- Without Wi-Fi association, `https_stuff` is a complete no-op: its whole
body sits inside the connectivity guard. -/
theorem https_stuff_offline (cfg : Config) (env : NetEnv) (s : Bool)
    (h : env.wifiConnected = false) :
    https_stuff cfg env s = Trace.empty := by
  simp [https_stuff, h]

/-- Claim C1 as stated is false: at initial raw level LOW (with Wi-Fi up
and the server answering 200), the startup sequence records one
`https_stuff` invocation, not zero — `setup()` ends with
`https_stuff(old_door_state)`. -/
theorem C1_counterexample :
    ¬ ((setupRun cfg0 LOW envUp).2.notifyArgs = []) := by
  simp [setupRun, https_stuff_notifyArgs]

/-- Claim C1, amended: at process start the confirmed door state is seeded
from the single raw sensor read, and the startup sequence then performs
exactly one notifier invocation, whose argument is that startup value,
before the first poll cycle. -/
theorem C1_startup_notifies : ∀ (cfg : Config) (initRead : Bool) (env : NetEnv),
    (setupRun cfg initRead env).1 = initRead ∧
    (setupRun cfg initRead env).2.notifyArgs = [initRead] := by
  intro cfg initRead env
  simp [setupRun, https_stuff_notifyArgs]

/-- Claim C2: one poll cycle changes the confirmed state to the newly read
level iff the first read differs from the confirmed level and the re-read
after the debounce wait still differs from the confirmed level; in every
other case the confirmed state is unchanged.  (On the two-valued signal
delivered by `digitalRead`, the sketch's test `verify == door_state` is
equivalent to `verify != old_door_state` under `door_state !=
old_door_state`.) -/
theorem C2_debounce_rule : ∀ (cfg : Config) (old : Bool) (inp : CycleInput),
    (loopCycle cfg old inp).1 =
      (if inp.read1 ≠ old ∧ inp.read2 ≠ old then inp.read2 else old) := by
  intro cfg old inp
  obtain ⟨r1, r2, env⟩ := inp
  cases old <;> cases r1 <;> cases r2 <;> simp [loopCycle]

/-- Claim C3: a poll cycle that accepts a transition (pre-wait read differs
from the confirmed state, post-wait read confirms it) invokes the notifier
exactly once, with the new confirmed state as argument; a cycle that
accepts no transition invokes it zero times. -/
theorem C3_notify_exactly_once : ∀ (cfg : Config) (old : Bool) (inp : CycleInput),
    (loopCycle cfg old inp).2.notifyArgs =
      (if inp.read1 ≠ old ∧ inp.read2 = inp.read1
       then [(loopCycle cfg old inp).1] else []) := by
  intro cfg old inp
  obtain ⟨r1, r2, env⟩ := inp
  cases old <;> cases r1 <;> cases r2 <;>
    simp [loopCycle, https_stuff_notifyArgs, HIGH]

/-- Claim C4: when the connectivity provider reports the network unusable,
the notify operation is a complete no-op (zero outbound requests, no error
— it returns the empty trace), while the confirmed state still follows the
debounce rule in the same cycle. -/
theorem C4_offline_silent (cfg : Config) (old : Bool) (inp : CycleInput)
    (h : inp.env.wifiConnected = false) :
    https_stuff cfg inp.env inp.read2 = Trace.empty ∧
    (loopCycle cfg old inp).2.posts = [] ∧
    (loopCycle cfg old inp).1 =
      (if inp.read1 ≠ old ∧ inp.read2 ≠ old then inp.read2 else old) := by
  obtain ⟨r1, r2, env⟩ := inp
  simp only at h
  refine ⟨https_stuff_offline cfg env r2 h, ?_, ?_⟩ <;>
    cases old <;> cases r1 <;> cases r2 <;>
      simp [loopCycle, https_stuff_offline _ _ _ h, HIGH]

/-- Witness for C4 at a concrete offline input: confirmed state still
flips LOW to HIGH while no request is sent. -/
theorem C4_offline_silent_witness :
    envDown.wifiConnected = false ∧
    (https_stuff cfg0 envDown true = Trace.empty ∧
     (loopCycle cfg0 false ⟨true, true, envDown⟩).2.posts = [] ∧
     (loopCycle cfg0 false ⟨true, true, envDown⟩).1 =
       (if (true : Bool) ≠ false ∧ (true : Bool) ≠ false then true else false)) :=
  ⟨rfl, C4_offline_silent cfg0 false ⟨true, true, envDown⟩ rfl⟩

/-- Claim C5: with connectivity usable, the notify operation performs
exactly one POST with empty body to
`https://www.doors.modeemi.fi/space_events/` ++ spaceId ++ action, where
the action is `/open` for the logic-low (Open) level and `/close` for the
logic-high (Closed) level. -/
theorem C5_post_url (cfg : Config) (env : NetEnv) (s : Bool)
    (h : env.wifiConnected = true) :
    (https_stuff cfg env s).posts =
      [{ method := "POST",
         url := "https://www.doors.modeemi.fi/space_events/" ++ cfg.spaceid ++
           (if s = LOW then "/open" else "/close"),
         body := "", authUser := cfg.webUser, authPass := cfg.webPass }] := by
  rw [https_stuff_posts_online cfg env s h]
  cases s <;> simp [urlFor, LOW]

/-- Witness for C5 at a concrete online input and the Open level. -/
theorem C5_post_url_witness :
    envUp.wifiConnected = true ∧
    (https_stuff cfg0 envUp false).posts =
      [{ method := "POST",
         url := "https://www.doors.modeemi.fi/space_events/" ++ cfg0.spaceid ++
           (if (false : Bool) = LOW then "/open" else "/close"),
         body := "", authUser := cfg0.webUser, authPass := cfg0.webPass }] :=
  ⟨rfl, C5_post_url cfg0 envUp false rfl⟩

/-- Claim C6: a request outcome is treated as success (the response payload
is fetched and printed) iff the status is 200 or 301; every other outcome,
including a negative transport-error code, fetches nothing — and the single
POST has already happened regardless of the outcome. -/
theorem C6_success_iff_200_or_301 (cfg : Config) (env : NetEnv) (s : Bool)
    (h : env.wifiConnected = true) :
    (https_stuff cfg env s).payloadFetches =
      (if env.postCode = 200 ∨ env.postCode = 301 then [env.payload] else []) ∧
    (https_stuff cfg env s).posts.length = 1 := by
  constructor
  · simp only [https_stuff, h, if_true, httpBegin_urlFor,
      HTTP_CODE_OK, HTTP_CODE_MOVED_PERMANENTLY]
    simp [apply_ite Trace.payloadFetches]
    omega
  · rw [https_stuff_posts_online cfg env s h]
    rfl

/-- Witness for C6 at a concrete input with status 500: no payload fetch,
one POST. -/
theorem C6_success_iff_200_or_301_witness :
    env500.wifiConnected = true ∧
    ((https_stuff cfg0 env500 true).payloadFetches =
       (if env500.postCode = 200 ∨ env500.postCode = 301
        then [env500.payload] else []) ∧
     (https_stuff cfg0 env500 true).posts.length = 1) :=
  ⟨rfl, C6_success_iff_200_or_301 cfg0 env500 true rfl⟩

/-- Claim C7: on an accepted transition the confirmed state is committed to
the new level regardless of the network environment (in particular for a
500 response) — the update happens before the notify attempt — and the next
cycle, its first read now equal to the committed state, performs no retry:
zero notifier invocations and zero requests. -/
theorem C7_state_committed_no_retry (cfg : Config) (old : Bool)
    (inp inp2 : CycleInput)
    (hchange : inp.read1 ≠ old) (hconf : inp.read2 = inp.read1)
    (hstable : inp2.read1 = inp.read2) :
    (loopCycle cfg old inp).1 = inp.read2 ∧
    (loopCycle cfg (loopCycle cfg old inp).1 inp2).2.notifyArgs = [] ∧
    (loopCycle cfg (loopCycle cfg old inp).1 inp2).2.posts = [] := by
  obtain ⟨r1, r2, env⟩ := inp
  obtain ⟨q1, q2, env2⟩ := inp2
  simp only at hchange hconf hstable
  subst hconf hstable
  cases old <;> cases q1 <;> cases q2 <;>
    simp_all [loopCycle, https_stuff_notifyArgs, HIGH]

/-- Witness for C7: LOW to HIGH accepted while the server answers 500; the
state is committed and the following stable cycle sends nothing. -/
theorem C7_state_committed_no_retry_witness :
    ((true : Bool) ≠ false ∧ (true : Bool) = true ∧ (true : Bool) = true) ∧
    ((loopCycle cfg0 false ⟨true, true, env500⟩).1 = true ∧
     (loopCycle cfg0 (loopCycle cfg0 false ⟨true, true, env500⟩).1
        ⟨true, false, env500⟩).2.notifyArgs = [] ∧
     (loopCycle cfg0 (loopCycle cfg0 false ⟨true, true, env500⟩).1
        ⟨true, false, env500⟩).2.posts = []) :=
  ⟨⟨by decide, rfl, rfl⟩,
   C7_state_committed_no_retry cfg0 false ⟨true, true, env500⟩
     ⟨true, false, env500⟩ (by decide) rfl rfl⟩

/-- Claim C8: every poll cycle calls `show_armed` exactly once,
unconditionally — whatever the reads, the confirmed state and the network
environment. -/
theorem C8_armed_every_cycle : ∀ (cfg : Config) (old : Bool) (inp : CycleInput),
    (loopCycle cfg old inp).2.armedCount = 1 := by
  intro cfg old inp
  obtain ⟨r1, r2, env⟩ := inp
  cases old <;> cases r1 <;> cases r2 <;>
    simp [loopCycle, https_stuff_armedCount, HIGH]

/-- Claim C9: the notify operation is stateless across calls — two
consecutive calls with the same target state and usable connectivity send
two independent requests, composed identically from the argument alone
(the request lists coincide whatever the two environments answer). -/
theorem C9_stateless_notify (cfg : Config) (s : Bool) (e1 e2 : NetEnv)
    (h1 : e1.wifiConnected = true) (h2 : e2.wifiConnected = true) :
    (https_stuff cfg e1 s).posts = (https_stuff cfg e2 s).posts ∧
    ((https_stuff cfg e1 s).posts ++ (https_stuff cfg e2 s).posts).length = 2 := by
  rw [https_stuff_posts_online cfg e1 s h1, https_stuff_posts_online cfg e2 s h2]
  exact ⟨rfl, rfl⟩

/-- Witness for C9: notifying Closed twice, once answered 200 and once 500,
sends two equal requests. -/
theorem C9_stateless_notify_witness :
    envUp.wifiConnected = true ∧ env500.wifiConnected = true ∧
    ((https_stuff cfg0 envUp true).posts = (https_stuff cfg0 env500 true).posts ∧
     ((https_stuff cfg0 envUp true).posts ++
      (https_stuff cfg0 env500 true).posts).length = 2) :=
  ⟨rfl, rfl, C9_stateless_notify cfg0 true envUp env500 rfl rfl⟩

/-- Claim C10: the core is deterministic — two runs of a poll cycle from
the same confirmed state, the same raw reads and the same network answers
end in the same confirmed state and produce the same effect trace
(notifier invocations and request URLs included). -/
theorem C10_deterministic (cfg : Config) (old : Bool) (inp : CycleInput)
    (run1 run2 : Bool × Trace)
    (h1 : run1 = loopCycle cfg old inp) (h2 : run2 = loopCycle cfg old inp) :
    run1.1 = run2.1 ∧ run1.2 = run2.2 := by
  subst h1 h2
  exact ⟨rfl, rfl⟩

/-- Witness for C10 at a concrete accepted-transition input. -/
theorem C10_deterministic_witness :
    (loopCycle cfg0 false ⟨true, true, envUp⟩ =
       loopCycle cfg0 false ⟨true, true, envUp⟩) ∧
    ((loopCycle cfg0 false ⟨true, true, envUp⟩).1 =
       (loopCycle cfg0 false ⟨true, true, envUp⟩).1 ∧
     (loopCycle cfg0 false ⟨true, true, envUp⟩).2 =
       (loopCycle cfg0 false ⟨true, true, envUp⟩).2) :=
  ⟨rfl, C10_deterministic cfg0 false ⟨true, true, envUp⟩
    (loopCycle cfg0 false ⟨true, true, envUp⟩)
    (loopCycle cfg0 false ⟨true, true, envUp⟩) rfl rfl⟩

end ESP8266Doors
